import Mathlib

/-!
Selection handling of the walk `ComboBox` and `TabWidget`

A shallow embedding of `src/pkg/walk/combobox.go` and `src/pkg/walk/tabwidget.go`.

Conventions of the embedding

* A widget is a record of its Go fields that carry selection state.  Methods with a
  pointer receiver become functions that return the widget after the call, paired
  with the returned `os.Error` (`none` is Go's `nil`).
* The native control is the environment.  Every `SendMessage` / Win32 call whose
  result the Go code inspects appears as an argument holding the value the call
  returned, already converted the way the Go code converts it
  (`int(SendMessage(...))`).  The theorems quantify over these replies.
* `EventPublisher.Publish()` runs application handlers; the embedding counts the
  calls in the field `published` and treats the handlers as not touching the widget.
* A Go run-time failure of an index expression (slice index out of range) is the
  result `none` of an `Option`.
* `strconv.Itoa` and `strconv.Atoi` belong to the Go library; they are written out
  here for an `int` of `intSize` bits, and the theorems hold for every `intSize`.
-/

namespace Walk

/-! ## Errors -/

/-- The `os.Error` values the two files produce.  `newError` and `lastError` are the
package helpers of the same name, told apart by their message; `numError` is what
`strconv.Atoi` reports; `collaborator` is an error handed back by code outside the
two files (state store, a page's own save and restore). -/
inductive Error where
  | newError (msg : String)
  | lastError (api : String)
  | numError (input : String) (range : Bool)
  | collaborator (msg : String)
deriving DecidableEq, Repr

/-! ## Win32 constants used by the two files -/

/-- Win32 `CB_ERR`, as seen after the conversion to `int`. -/
def CB_ERR : Int := -1

/-- Win32 `WM_COMMAND`. -/
def WM_COMMAND : Nat := 0x0111

/-- Win32 `WM_NOTIFY`. -/
def WM_NOTIFY : Nat := 0x004E

/-- Win32 `WM_SIZE`. -/
def WM_SIZE : Nat := 0x0005

/-- Win32 `WM_SIZING`. -/
def WM_SIZING : Nat := 0x0214

/-- Win32 `CBN_SELENDOK`. -/
def CBN_SELENDOK : Nat := 9

/-- Win32 `TCN_SELCHANGE` (`TCN_FIRST - 1`, `TCN_FIRST = -550`). -/
def TCN_SELCHANGE : Int := -551

/-- Win32 `HIWORD`: bits 16 to 31 of a `uint`. -/
def HIWORD (x : Nat) : Nat := (x / 2 ^ 16) % 2 ^ 16

/-! ## ComboBox (`combobox.go`) -/

/-- The Go `ComboBox` struct: the in-memory item texts (`items`), the recorded
selection `prevSelIndex`, and the number of times `selectedIndexChangedPublisher`
has published. -/
structure ComboBox where
  items : List String
  prevSelIndex : Int
  published : Nat
deriving DecidableEq, Repr

/-- The state `NewComboBox` builds: `prevSelIndex: -1` and an empty item list. -/
def NewComboBox : ComboBox :=
  { items := [], prevSelIndex := -1, published := 0 }

namespace ComboBox

/-- The call `selectedIndexChangedPublisher.Publish()`. -/
def publish (cb : ComboBox) : ComboBox :=
  { cb with published := cb.published + 1 }

/-- Go `SelectedIndex`: the reply of `CB_GETCURSEL`. -/
def SelectedIndex (_cb : ComboBox) (curSel : Int) : Int := curSel

/-- Go `SetSelectedIndex(value)`; `reply` is `int(SendMessage(cb.hWnd, CB_SETCURSEL, value, 0))`. -/
def SetSelectedIndex (cb : ComboBox) (value : Int) (reply : Int) : ComboBox × Option Error :=
  let index := reply
  if index ≠ value then
    (cb, some (Error.newError "invalid index"))
  else if value ≠ cb.prevSelIndex then
    (({ cb with prevSelIndex := value } : ComboBox).publish, none)
  else
    (cb, none)

/-- Go `wndProc(hwnd, msg, wParam, lParam)`; `curSel` is the reply of `CB_GETCURSEL`
(read only on `CBN_SELENDOK`), `base` the value `WidgetBase.wndProc` returns.
`WidgetBase.wndProc` is a method of the embedded base widget and has no access to
the fields of `ComboBox`. -/
def wndProc (cb : ComboBox) (msg wParam : Nat) (curSel : Int) (base : Nat) : ComboBox × Nat :=
  if msg = WM_COMMAND ∧ HIWORD wParam = CBN_SELENDOK then
    let selIndex := cb.SelectedIndex curSel
    if selIndex ≠ cb.prevSelIndex then
      ({ cb.publish with prevSelIndex := selIndex }, 0)
    else
      (cb, base)
  else
    (cb, base)

/-- Go `onInsertingComboBoxItem(index, item)`; `reply` is the result of `CB_INSERTSTRING`. -/
def onInsertingComboBoxItem (cb : ComboBox) (_index : Int) (_item : String) (reply : Int) :
    ComboBox × Option Error :=
  let err : Option Error :=
    if CB_ERR = reply then some (Error.newError "CB_INSERTSTRING failed") else none
  (cb, err)

/-- Go `onRemovingComboBoxItem(index, item)`; `reply` is the result of `CB_DELETESTRING`. -/
def onRemovingComboBoxItem (cb : ComboBox) (index : Int) (_item : String) (reply : Int) :
    ComboBox × Option Error :=
  let err : Option Error :=
    if CB_ERR = reply then some (Error.newError "CB_DELETESTRING failed") else none
  let cb1 : ComboBox := if index = cb.prevSelIndex then { cb with prevSelIndex := -1 } else cb
  (cb1, err)

/-- Go `onClearingComboBoxItems()`. -/
def onClearingComboBoxItems (cb : ComboBox) : ComboBox × Option Error :=
  ({ cb with prevSelIndex := -1 }, none)

end ComboBox

/-! ## Decimal conversion (`strconv.Itoa`, `strconv.Atoi`) -/

/-- Go `strconv.Itoa`: the decimal text of an `int`, with a leading `-` when negative. -/
def Itoa (i : Int) : String :=
  match i with
  | Int.ofNat m => Nat.repr m
  | Int.negSucc m => "-" ++ Nat.repr (m + 1)

/-- The value of a decimal digit character (`'0' <= c && c <= '9'`, then `c - '0'`). -/
def digitVal (c : Char) : Option Nat :=
  if c.isDigit then some (c.toNat - '0'.toNat) else none

/-- The unsigned decimal value of a digit sequence, continuing from `acc`; `none` when
a character is not a decimal digit. -/
def parseDigits : List Char → Nat → Option Nat
  | [], acc => some acc
  | c :: cs, acc =>
    match digitVal c with
    | none => none
    | some d => parseDigits cs (10 * acc + d)

/-- Go `strconv.Atoi` for an `int` of `intSize` bits: an optional sign, then one or more
decimal digits; a syntax error (`range = false`) for anything else and a range error
(`range = true`) when the value does not fit an `int`. -/
def Atoi (intSize : Nat) (s : String) : Except Error Int :=
  match s.data with
  | [] => .error (Error.numError s false)
  | c :: cs =>
    let neg : Bool := c = '-'
    let ds : List Char := if c = '+' ∨ c = '-' then cs else c :: cs
    match ds with
    | [] => .error (Error.numError s false)
    | d :: ds1 =>
      match parseDigits (d :: ds1) 0 with
      | none => .error (Error.numError s false)
      | some n =>
        if neg then
          if n ≤ 2 ^ (intSize - 1) then .ok (-(n : Int)) else .error (Error.numError s true)
        else
          if n < 2 ^ (intSize - 1) then .ok (n : Int) else .error (Error.numError s true)

/-- The value of a run of decimal digits read as a base-ten numeral. -/
def decimalValue (ds : List Char) : Nat :=
  ds.foldl (fun acc c => 10 * acc + (c.toNat - '0'.toNat)) 0

/-- A non-empty run of decimal digits. -/
def isNumeral (ds : List Char) : Bool := !ds.isEmpty && ds.all Char.isDigit

/-- A string that is parseable as a decimal integer of the `int` type, stated on the
text rather than by running the parser: an optional sign `+` or `-` followed by a
non-empty run of decimal digits whose signed value lies within
`-2^(intSize-1) .. 2^(intSize-1) - 1`. -/
def isDecimalInt (intSize : Nat) (s : String) : Bool :=
  match s.data with
  | [] => false
  | c :: cs =>
    if c = '-' then isNumeral cs && decide (decimalValue cs ≤ 2 ^ (intSize - 1))
    else if c = '+' then isNumeral cs && decide (decimalValue cs < 2 ^ (intSize - 1))
    else isNumeral (c :: cs) && decide (decimalValue (c :: cs) < 2 ^ (intSize - 1))

/-! ## TabWidget (`tabwidget.go`) -/

/-- Win32 `POINT`. -/
structure POINT where
  X : Int
  Y : Int
deriving DecidableEq, Repr

/-- Win32 `RECT`. -/
structure RECT where
  Left : Int
  Top : Int
  Right : Int
  Bottom : Int
deriving DecidableEq, Repr

/-- The package's `Rectangle`. -/
structure Rectangle where
  X : Int
  Y : Int
  Width : Int
  Height : Int
deriving DecidableEq, Repr

/-- What the TabWidget code reads and writes of a `TabPage`: its tab text, whether
its window is shown (`SetVisible`), the bounds last given to it (`SetBounds`) and how
often it was invalidated (`Invalidate`). -/
structure TabPage where
  text : String
  visible : Bool
  bounds : Rectangle
  invalidated : Nat
deriving DecidableEq, Repr

namespace TabPage

/-- Go `page.SetVisible(v)`. -/
def SetVisible (p : TabPage) (v : Bool) : TabPage := { p with visible := v }

/-- Go `page.Invalidate()`. -/
def Invalidate (p : TabPage) : TabPage := { p with invalidated := p.invalidated + 1 }

/-- Go `page.Text()`. -/
def Text (p : TabPage) : String := p.text

end TabPage

/-- The messages the code sends to the native tab control `hWndTab`. -/
inductive TabMsg where
  | WM_SETFONT
  | TCM_SETCURSEL (index : Int)
  | TCM_GETCURSEL
  | TCM_INSERTITEM (index : Int) (text : String)
  | TCM_ADJUSTRECT (r : RECT)
deriving DecidableEq, Repr

/-- The Go `TabWidget` struct: handle of the native tab control, the pages
(`pages.items`), `selectedIndex`, the number of times
`selectedIndexChangedPublisher` has published, `persistent`, and the messages sent
to `hWndTab` so far. -/
structure TabWidget where
  hWndTab : Nat
  pages : List TabPage
  selectedIndex : Int
  published : Nat
  persistent : Bool
  sent : List TabMsg
deriving DecidableEq, Repr

/-- Replies of the Win32 calls made by `resizePages`: `GetWindowRect` (`none` when it
returns false), `ScreenToClient` on the given point (`none` when it returns false),
the rectangle `TCM_ADJUSTRECT` writes back, and the result of `SetBounds` on the page
at each position. -/
structure ResizeReplies where
  getWindowRect : Option RECT
  screenToClient : POINT → Option POINT
  adjustRect : RECT → RECT
  setBounds : Nat → Rectangle → Option Error

/-- Replies of the native calls made by `onInsertedPage`: `GetWindowLong`,
`SetWindowLong`, `SetParent`, `int(SendMessage(hWndTab, TCM_INSERTITEM, ...))`, and
those of the closing `resizePages`. -/
structure InsertReplies where
  getWindowLong : Nat
  setWindowLong : Int
  setParent : Nat
  insertItem : Int
  resize : ResizeReplies

/-- Go `pages.At(index)`: `l.items[index]`, a run-time failure when out of range. -/
def TabPageList.At (pages : List TabPage) (index : Int) : Option TabPage :=
  if 0 ≤ index then pages[index.toNat]? else none

/-- Go `pages.Len()`. -/
def TabPageList.Len (pages : List TabPage) : Int := pages.length

/-- The effect of calling a method on the page object stored at position `index`;
`none` when `pages.At(index)` fails. -/
def TabPageList.update (pages : List TabPage) (index : Int) (f : TabPage → TabPage) :
    Option (List TabPage) :=
  match TabPageList.At pages index with
  | none => none
  | some p => some (pages.set index.toNat (f p))

/-- The loop of `resizePages`: `SetBounds(rect)` on each page in order, stopping at
the first error. -/
def setBoundsLoop (setBounds : Nat → Rectangle → Option Error) (rect : Rectangle) :
    Nat → List TabPage → List TabPage
  | _, [] => []
  | i, p :: ps =>
    match setBounds i rect with
    | some _ => p :: ps
    | none => { p with bounds := rect } :: setBoundsLoop setBounds rect (i + 1) ps

/-- The widget `NewTabWidget` builds once `initChildWidget` and `CreateWindowEx` have
succeeded: `selectedIndex: -1`, no pages, persistent, font set on the tab control. -/
def TabWidget.init (hWndTab : Nat) : TabWidget :=
  { hWndTab := hWndTab, pages := [], selectedIndex := -1, published := 0,
    persistent := true, sent := [TabMsg.WM_SETFONT] }

/-- Go `NewTabWidget(parent)`; `initChildWidget` is the error of that call, `hWndTab`
the handle `CreateWindowEx` returns. -/
def NewTabWidget (initChildWidget : Option Error) (hWndTab : Nat) : Except Error TabWidget :=
  match initChildWidget with
  | some err => .error err
  | none =>
    if hWndTab = 0 then .error (Error.lastError "CreateWindowEx")
    else .ok (TabWidget.init hWndTab)

namespace TabWidget

/-- Go `SelectedIndex()`. -/
def SelectedIndex (tw : TabWidget) : Int := tw.selectedIndex

/-- Go `Persistent()`. -/
def Persistent (tw : TabWidget) : Bool := tw.persistent

/-- Go `SetPersistent(value)`. -/
def SetPersistent (tw : TabWidget) (value : Bool) : TabWidget := { tw with persistent := value }

/-- The call `selectedIndexChangedPublisher.Publish()`. -/
def publish (tw : TabWidget) : TabWidget := { tw with published := tw.published + 1 }

/-- Go `SendMessage(tw.hWndTab, m, ...)`. -/
def send (tw : TabWidget) (m : TabMsg) : TabWidget := { tw with sent := tw.sent ++ [m] }

/-- Go `resizePages()`. -/
def resizePages (tw : TabWidget) (r : ResizeReplies) : TabWidget :=
  match r.getWindowRect with
  | none => tw
  | some r0 =>
    match r.screenToClient ⟨r0.Left, r0.Top⟩ with
    | none => tw
    | some p =>
      let r1 : RECT := ⟨p.X, p.Y, r0.Right - r0.Left + p.X, r0.Bottom - r0.Top + p.Y⟩
      let tw1 := tw.send (TabMsg.TCM_ADJUSTRECT r1)
      let r2 := r.adjustRect r1
      let rect : Rectangle := ⟨r2.Left - 2, r2.Top, r2.Right - r2.Left + 2, r2.Bottom - r2.Top⟩
      { tw1 with pages := setBoundsLoop r.setBounds rect 0 tw1.pages }

/-- Go `onResize(lParam)`; `moveWindow` is the result of `MoveWindow`. -/
def onResize (tw : TabWidget) (moveWindow : Bool) (r : ResizeReplies) : TabWidget :=
  if moveWindow then tw.resizePages r else tw

/-- Go `onSelChange()`; `curSel` is `int(SendMessage(tw.hWndTab, TCM_GETCURSEL, 0, 0))`. -/
def onSelChange (tw : TabWidget) (curSel : Int) : Option TabWidget :=
  let hidden : Option (List TabPage) :=
    if tw.selectedIndex ≠ -1 then
      TabPageList.update tw.pages tw.selectedIndex (fun page => page.SetVisible false)
    else some tw.pages
  match hidden with
  | none => none
  | some pages1 =>
    let tw1 := { tw.send TabMsg.TCM_GETCURSEL with pages := pages1, selectedIndex := curSel }
    let shown : Option (List TabPage) :=
      if tw1.selectedIndex ≠ -1 then
        TabPageList.update tw1.pages tw1.selectedIndex
          (fun page => (page.SetVisible true).Invalidate)
      else some tw1.pages
    match shown with
    | none => none
    | some pages2 => some ({ tw1 with pages := pages2 } : TabWidget).publish

/-- Go `SetSelectedIndex(index)`; `ret` is `int(SendMessage(tw.hWndTab, TCM_SETCURSEL, index, 0))`,
`curSel` the reply of the `TCM_GETCURSEL` that `onSelChange` sends. -/
def SetSelectedIndex (tw : TabWidget) (index : Int) (ret curSel : Int) :
    Option (TabWidget × Option Error) :=
  if index = tw.selectedIndex then
    some (tw, none)
  else if index < 0 ∨ index ≥ TabPageList.Len tw.pages then
    some (tw, some (Error.newError "invalid index"))
  else
    let tw1 := tw.send (TabMsg.TCM_SETCURSEL index)
    if ret = -1 then
      some (tw1, some (Error.newError "SendMessage(TCM_SETCURSEL) failed"))
    else
      match tw1.onSelChange curSel with
      | none => none
      | some tw2 => some (tw2, none)

/-- The loops `for _, page := range tw.pages.items` of `SaveState` and `RestoreState`:
the first error a page reports, `none` when every page succeeds. -/
def firstPageError (result : Nat → Option Error) (n : Nat) : Option Error :=
  (List.range n).findSome? result

/-- Go `SaveState()`: the string handed to `putState`, and the returned error;
`pageSave i` is the result of `SaveState` on the page at position `i`. -/
def SaveState (tw : TabWidget) (pageSave : Nat → Option Error) : String × Option Error :=
  (Itoa tw.SelectedIndex, firstPageError pageSave tw.pages.length)

/-- Go `RestoreState()`; `getState` is the result of `tw.getState()`, `ret` and `curSel`
the native replies used by `SetSelectedIndex`, `pageRestore i` the result of
`RestoreState` on the page at position `i`. -/
def RestoreState (intSize : Nat) (tw : TabWidget) (getState : Except Error String)
    (ret curSel : Int) (pageRestore : Nat → Option Error) :
    Option (TabWidget × Option Error) :=
  match getState with
  | .error err => some (tw, some err)
  | .ok state =>
    if state = "" then some (tw, none)
    else
      match Atoi intSize state with
      | .error err => some (tw, some err)
      | .ok index =>
        let selected : Option (TabWidget × Option Error) :=
          if index ≥ 0 ∧ index < TabPageList.Len tw.pages then
            tw.SetSelectedIndex index ret curSel
          else some (tw, none)
        match selected with
        | none => none
        | some (tw1, some err) => some (tw1, some err)
        | some (tw1, none) => some (tw1, firstPageError pageRestore tw1.pages.length)

/-- Go `wndProc(hwnd, msg, wParam, lParam)`; `code` is `int(nmhdr.Code)` of a `WM_NOTIFY`,
`base` the value `WidgetBase.wndProc` returns. -/
def wndProc (tw : TabWidget) (msg : Nat) (code : Int) (moveWindow : Bool) (r : ResizeReplies)
    (curSel : Int) (base : Nat) : Option (TabWidget × Nat) :=
  if tw.hWndTab ≠ 0 then
    if msg = WM_SIZE ∨ msg = WM_SIZING then
      some (tw.onResize moveWindow r, base)
    else if msg = WM_NOTIFY ∧ code = TCN_SELCHANGE then
      match tw.onSelChange curSel with
      | none => none
      | some tw1 => some (tw1, base)
    else some (tw, base)
  else some (tw, base)

/-- Go `onInsertingPage(index, page)`. -/
def onInsertingPage (tw : TabWidget) (_index : Int) : TabWidget × Option Error := (tw, none)

/-- Go `onInsertedPage(index, page)`, run when the page list already holds `page` at
position `index`; the page object is addressed through that position.  The window
style computed from `GetWindowLong` (`WS_CHILD` set, `WS_POPUP` cleared) only travels
to `SetWindowLong` and is no part of the widget. -/
def onInsertedPage (tw : TabWidget) (index : Nat) (r : InsertReplies) :
    TabWidget × Option Error :=
  let setVisible (t : TabWidget) (v : Bool) : TabWidget :=
    { t with pages := t.pages.modify (fun page => page.SetVisible v) index }
  let tw1 := setVisible tw false
  let style := r.getWindowLong
  if style = 0 then (tw1, some (Error.lastError "GetWindowLong"))
  else if r.setWindowLong = 0 then (tw1, some (Error.lastError "SetWindowLong"))
  else if r.setParent = 0 then (tw1, some (Error.lastError "SetParent"))
  else
    let tw2 : TabWidget :=
      if TabPageList.Len tw1.pages = 1 then { setVisible tw1 true with selectedIndex := 0 }
      else tw1
    let text := ((tw2.pages[index]?).map TabPage.Text).getD ""
    let tw3 := tw2.send (TabMsg.TCM_INSERTITEM index text)
    if r.insertItem = -1 then
      (tw3, some (Error.newError "SendMessage(TCM_INSERTITEM) failed"))
    else (tw3.resizePages r.resize, none)

end TabWidget

/-- Modelled from the spec: `TabPageList.Insert` (the spec's `insertPage(index, page)`)
is not among the source files.  The tab widget owns an ordered page collection; an
insertion places the page at `index` (`0 ≤ index ≤ Len()`) and runs the widget's
`onInsertingPage` and `onInsertedPage` hooks, the latter with the page already in
the list, as its `tw.pages.Len() == 1` test for the first page requires.  When a hook
reports an error the operation is rejected and the page is taken out of the list
again.  An index outside `0 ≤ index ≤ Len()` is a run-time failure. -/
def TabPageList.Insert (tw : TabWidget) (index : Int) (page : TabPage) (r : InsertReplies) :
    Option (TabWidget × Option Error) :=
  if index < 0 ∨ index > TabPageList.Len tw.pages then none
  else
    match tw.onInsertingPage index with
    | (tw0, some err) => some (tw0, some err)
    | (tw0, none) =>
      let tw1 : TabWidget := { tw0 with pages := tw0.pages.insertIdx index.toNat page }
      match tw1.onInsertedPage index.toNat r with
      | (tw2, some err) => some ({ tw2 with pages := tw2.pages.eraseIdx index.toNat }, some err)
      | (tw2, none) => some (tw2, none)

/-- Go `pages.Add(page)` for each page of a list in order, every insertion succeeding;
`none` as soon as one does not. -/
def addPages (tw : TabWidget) : List (TabPage × InsertReplies) → Option TabWidget
  | [] => some tw
  | (page, r) :: rest =>
    match TabPageList.Insert tw (TabPageList.Len tw.pages) page r with
    | some (tw1, none) => addPages tw1 rest
    | _ => none

/-- The native replies with which `onInsertedPage` returns no error. -/
def InsertReplies.succeeds (r : InsertReplies) : Prop :=
  r.getWindowLong ≠ 0 ∧ r.setWindowLong ≠ 0 ∧ r.setParent ≠ 0 ∧ r.insertItem ≠ -1

instance (r : InsertReplies) : Decidable r.succeeds := by
  unfold InsertReplies.succeeds
  infer_instance

/-! ## The visibility invariant -/

/-- Of the pages, the one at position `s` is visible and every other one is hidden
(all are hidden when `s` is not a position of the list). -/
def OnlyVisible (s : Int) (pages : List TabPage) : Prop :=
  ∀ i, i < pages.length → (pages[i]?).map TabPage.visible = some (decide ((i : Int) = s))

instance (s : Int) (pages : List TabPage) : Decidable (OnlyVisible s pages) := by
  unfold OnlyVisible
  infer_instance

/-- Field `selectedIndex` is -1 or a position of the page list. -/
def SelectionInRange (tw : TabWidget) : Prop :=
  tw.selectedIndex = -1 ∨ (0 ≤ tw.selectedIndex ∧ tw.selectedIndex < TabPageList.Len tw.pages)

instance (tw : TabWidget) : Decidable (SelectionInRange tw) := by
  unfold SelectionInRange
  infer_instance

/-- The shape of a TabWidget that has only had pages added: no page and
`selectedIndex = -1`, or `selectedIndex = 0` with exactly the first page visible. -/
def FreshShape (tw : TabWidget) : Prop :=
  tw.selectedIndex = (if tw.pages.length = 0 then -1 else 0) ∧
  OnlyVisible tw.selectedIndex tw.pages

instance (tw : TabWidget) : Decidable (FreshShape tw) := by
  unfold FreshShape
  infer_instance

/-! ## Sample native replies and pages for concrete runs -/

/-- Replies of a `resizePages` in which every call succeeds: a tab control of 200 by
100 at the client origin whose display area is inset by the tab strip. -/
def resizeOk : ResizeReplies :=
  { getWindowRect := some ⟨0, 0, 200, 100⟩
    screenToClient := fun p => some p
    adjustRect := fun r => ⟨r.Left + 4, r.Top + 24, r.Right - 4, r.Bottom - 4⟩
    setBounds := fun _ _ => none }

/-- Replies of an `onInsertedPage` in which every native call succeeds and the tab
control reports `index` as the position of the new tab. -/
def insertOk (index : Int) : InsertReplies :=
  { getWindowLong := 0x86000000, setWindowLong := 0x86000000, setParent := 1,
    insertItem := index, resize := resizeOk }

/-- Replies of an `onInsertedPage` in which `TCM_INSERTITEM` reports -1 and the
calls before it succeed. -/
def insertItemFails : InsertReplies :=
  { getWindowLong := 0x86000000, setWindowLong := 0x86000000, setParent := 1,
    insertItem := -1, resize := resizeOk }

/-- A page with the given tab text that is not shown and has no bounds yet. -/
def newPage (text : String) : TabPage :=
  { text := text, visible := false, bounds := ⟨0, 0, 0, 0⟩, invalidated := 0 }

/-! ## Decimal conversion lemmas -/

theorem digitVal_digitChar (k : Nat) (h : k < 10) : digitVal (Nat.digitChar k) = some k := by
  interval_cases k <;> decide

theorem parseDigits_append (l1 l2 : List Char) :
    ∀ acc, parseDigits (l1 ++ l2) acc = (parseDigits l1 acc).bind (parseDigits l2) := by
  induction l1 with
  | nil => intro acc; rfl
  | cons c cs ih =>
    intro acc
    simp only [List.cons_append, parseDigits]
    cases digitVal c with
    | none => rfl
    | some d => exact ih _

theorem toDigitsCore_append (fuel : Nat) :
    ∀ (n : Nat) (ds : List Char),
      Nat.toDigitsCore 10 fuel n ds = Nat.toDigitsCore 10 fuel n [] ++ ds := by
  induction fuel with
  | zero => intro n ds; rfl
  | succ fuel ih =>
    intro n ds
    simp only [Nat.toDigitsCore]
    by_cases h : n / 10 = 0
    · simp [h]
    · simp only [h, if_false]
      rw [ih (n / 10) (Nat.digitChar (n % 10) :: ds), ih (n / 10) [Nat.digitChar (n % 10)]]
      simp

theorem parseDigits_toDigitsCore (fuel : Nat) :
    ∀ n, n < fuel → parseDigits (Nat.toDigitsCore 10 fuel n []) 0 = some n := by
  induction fuel with
  | zero => intro n h; omega
  | succ fuel ih =>
    intro n hn
    have hd : digitVal (Nat.digitChar (n % 10)) = some (n % 10) :=
      digitVal_digitChar _ (Nat.mod_lt _ (by decide))
    simp only [Nat.toDigitsCore]
    by_cases h : n / 10 = 0
    · simp only [h, if_true, parseDigits, hd]
      congr 1
      omega
    · simp only [h, if_false]
      rw [toDigitsCore_append, parseDigits_append, ih (n / 10) (by omega)]
      simp only [Option.bind, parseDigits, hd]
      congr 1
      omega

/-- Function `parseDigits` succeeds exactly on runs of decimal digits and then yields their
base-ten value. -/
theorem parseDigits_eq_fold (ds : List Char) :
    ∀ acc, parseDigits ds acc
      = if ds.all Char.isDigit then
          some (ds.foldl (fun acc c => 10 * acc + (c.toNat - '0'.toNat)) acc)
        else none := by
  induction ds with
  | nil => intro acc; rfl
  | cons c cs ih =>
    intro acc
    simp only [parseDigits, digitVal, List.all_cons, List.foldl_cons]
    by_cases hc : c.isDigit = true
    · simp only [hc, if_true, Bool.true_and]
      exact ih _
    · simp [hc]

/-- Function `Atoi` reports an error exactly on the strings that are not decimal integers of
the `int` type. -/
theorem Atoi_error_iff (intSize : Nat) (s : String) :
    (∃ e, Atoi intSize s = .error e) ↔ isDecimalInt intSize s = false := by
  have hneg : ∀ (ds : List Char) (v : Nat),
      ((∃ e, (match (if ds.all Char.isDigit = true then some v else none : Option Nat) with
            | none => (Except.error (Error.numError s false) : Except Error Int)
            | some n =>
              if n ≤ 2 ^ (intSize - 1) then .ok (-(n : Int))
              else .error (Error.numError s true)) = .error e)
        ↔ (ds.all Char.isDigit && decide (v ≤ 2 ^ (intSize - 1))) = false) := by
    intro ds v
    by_cases hall : ds.all Char.isDigit = true
    · by_cases hr : v ≤ 2 ^ (intSize - 1) <;> simp [hall, hr]
    · simp [hall]
  have hpos : ∀ (ds : List Char) (v : Nat),
      ((∃ e, (match (if ds.all Char.isDigit = true then some v else none : Option Nat) with
            | none => (Except.error (Error.numError s false) : Except Error Int)
            | some n =>
              if n < 2 ^ (intSize - 1) then .ok (n : Int)
              else .error (Error.numError s true)) = .error e)
        ↔ (ds.all Char.isDigit && decide (v < 2 ^ (intSize - 1))) = false) := by
    intro ds v
    by_cases hall : ds.all Char.isDigit = true
    · by_cases hr : v < 2 ^ (intSize - 1) <;> simp [hall, hr]
    · simp [hall]
  unfold Atoi isDecimalInt
  cases s.data with
  | nil => simp
  | cons c cs =>
    by_cases hm : c = '-'
    · subst hm
      cases cs with
      | nil => simp [isNumeral]
      | cons d ds =>
        simp only [or_true, if_true, decide_True, parseDigits_eq_fold, decimalValue, isNumeral,
          List.isEmpty_cons, Bool.not_false, Bool.true_and]
        exact hneg (d :: ds) _
    · by_cases hp : c = '+'
      · subst hp
        cases cs with
        | nil => simp [isNumeral]
        | cons d ds =>
          simp only [true_or, if_true, hm, if_false, decide_False, parseDigits_eq_fold,
            decimalValue, isNumeral, List.isEmpty_cons, Bool.not_false, Bool.true_and,
            Bool.false_eq_true]
          exact hpos (d :: ds) _
      · simp only [hm, hp, or_self, if_false, decide_False, parseDigits_eq_fold,
          decimalValue, isNumeral, List.isEmpty_cons, Bool.not_false, Bool.true_and,
          Bool.false_eq_true]
        exact hpos (c :: cs) _

/-- Parsing the decimal text of a natural number gives the number back. -/
theorem parseDigits_repr (n : Nat) : parseDigits (Nat.repr n).data 0 = some n :=
  parseDigits_toDigitsCore (n + 1) n (Nat.lt_succ_self n)

/-- A digit sequence that parses and is not empty does not start with a sign. -/
theorem parseDigits_head (c : Char) (cs : List Char) (n : Nat)
    (h : parseDigits (c :: cs) 0 = some n) : c ≠ '+' ∧ c ≠ '-' := by
  constructor
  · rintro rfl
    simp [parseDigits, digitVal] at h
  · rintro rfl
    simp [parseDigits, digitVal] at h

/-- The decimal text of a natural number is not empty. -/
theorem repr_data_ne_nil (n : Nat) : (Nat.repr n).data ≠ [] := by
  intro h
  have hp := parseDigits_repr n
  have hl : (Nat.repr n).data.length = 0 := by rw [h]; rfl
  have : 0 < (Nat.toDigits 10 n).length := by
    unfold Nat.toDigits
    simp only [Nat.toDigitsCore]
    by_cases h0 : n / 10 = 0
    · simp [h0]
    · simp only [h0, if_false]
      rw [toDigitsCore_append]
      simp
  change (Nat.toDigits 10 n).length = 0 at hl
  omega

/-- Round trip of the decimal conversion: `Atoi` reads back what `Itoa` writes, for
every value of an `int` of `intSize` bits. -/
theorem Atoi_Itoa (intSize : Nat) (i : Int)
    (hlo : -(2 ^ (intSize - 1) : Int) ≤ i) (hhi : i < 2 ^ (intSize - 1)) :
    Atoi intSize (Itoa i) = .ok i := by
  cases i with
  | ofNat m =>
    have hm : m < 2 ^ (intSize - 1) := by
      have : ((m : Nat) : Int) < ((2 ^ (intSize - 1) : Nat) : Int) := by
        simpa using hhi
      exact_mod_cast this
    have hp := parseDigits_repr m
    unfold Atoi Itoa
    simp only
    cases hd : (Nat.repr m).data with
    | nil => exact absurd hd (repr_data_ne_nil m)
    | cons c cs =>
      rw [hd] at hp
      obtain ⟨hplus, hminus⟩ := parseDigits_head c cs m hp
      simp [hplus, hminus, hp, hm]
  | negSucc m =>
    have hm : m + 1 ≤ 2 ^ (intSize - 1) := by
      have : -((2 ^ (intSize - 1) : Nat) : Int) ≤ Int.negSucc m := by
        simpa using hlo
      rw [Int.negSucc_eq] at this
      have h2 : ((m + 1 : Nat) : Int) ≤ ((2 ^ (intSize - 1) : Nat) : Int) := by
        push_cast at this ⊢
        omega
      exact_mod_cast h2
    have hp := parseDigits_repr (m + 1)
    have hdata : ("-" ++ Nat.repr (m + 1)).data = '-' :: (Nat.repr (m + 1)).data := by
      rw [String.data_append]; rfl
    unfold Atoi Itoa
    simp only [hdata]
    cases hd : (Nat.repr (m + 1)).data with
    | nil => exact absurd hd (repr_data_ne_nil (m + 1))
    | cons c cs =>
      rw [hd] at hp
      simp [hp, hm, Int.negSucc_eq]

/-! ## Frame lemmas for the page loop and `resizePages` -/

theorem setBoundsLoop_length (f : Nat → Rectangle → Option Error) (rect : Rectangle) :
    ∀ (ps : List TabPage) (i : Nat), (setBoundsLoop f rect i ps).length = ps.length := by
  intro ps
  induction ps with
  | nil => intro i; rfl
  | cons p ps ih =>
    intro i
    unfold setBoundsLoop
    cases f i rect with
    | none => simp [ih]
    | some e => simp

theorem setBoundsLoop_visible (f : Nat → Rectangle → Option Error) (rect : Rectangle) :
    ∀ (ps : List TabPage) (i : Nat),
      (setBoundsLoop f rect i ps).map TabPage.visible = ps.map TabPage.visible := by
  intro ps
  induction ps with
  | nil => intro i; rfl
  | cons p ps ih =>
    intro i
    unfold setBoundsLoop
    cases f i rect with
    | none => simp [ih]
    | some e => simp

theorem resizePages_selectedIndex (tw : TabWidget) (r : ResizeReplies) :
    (tw.resizePages r).selectedIndex = tw.selectedIndex := by
  unfold TabWidget.resizePages
  cases r.getWindowRect with
  | none => rfl
  | some r0 =>
    simp only
    cases r.screenToClient ⟨r0.Left, r0.Top⟩ with
    | none => rfl
    | some p => rfl

theorem resizePages_published (tw : TabWidget) (r : ResizeReplies) :
    (tw.resizePages r).published = tw.published := by
  unfold TabWidget.resizePages
  cases r.getWindowRect with
  | none => rfl
  | some r0 =>
    simp only
    cases r.screenToClient ⟨r0.Left, r0.Top⟩ with
    | none => rfl
    | some p => rfl

theorem resizePages_length (tw : TabWidget) (r : ResizeReplies) :
    (tw.resizePages r).pages.length = tw.pages.length := by
  unfold TabWidget.resizePages
  cases r.getWindowRect with
  | none => rfl
  | some r0 =>
    simp only
    cases r.screenToClient ⟨r0.Left, r0.Top⟩ with
    | none => rfl
    | some p => simp [TabWidget.send, setBoundsLoop_length]

theorem resizePages_visible (tw : TabWidget) (r : ResizeReplies) :
    (tw.resizePages r).pages.map TabPage.visible = tw.pages.map TabPage.visible := by
  unfold TabWidget.resizePages
  cases r.getWindowRect with
  | none => rfl
  | some r0 =>
    simp only
    cases r.screenToClient ⟨r0.Left, r0.Top⟩ with
    | none => rfl
    | some p => simp [TabWidget.send, setBoundsLoop_visible]

/-- Visibility of the page at a position, read through the list of visibility flags. -/
theorem visible_getElem_of_map_eq {ps qs : List TabPage}
    (h : ps.map TabPage.visible = qs.map TabPage.visible) (i : Nat) :
    (ps[i]?).map TabPage.visible = (qs[i]?).map TabPage.visible := by
  have := congrArg (fun l => l[i]?) h
  simpa [List.getElem?_map] using this


/-! ## Lemmas on `onInsertedPage` -/

/-- Visibility flags after `SetVisible(v)` on the page at `index`. -/
theorem modify_SetVisible_visible (ps : List TabPage) (index : Nat) (v : Bool) (m : Nat) :
    ((ps.modify (fun page => page.SetVisible v) index)[m]?).map TabPage.visible
      = (ps[m]?).map (fun p => if index = m then v else p.visible) := by
  rw [List.getElem?_modify]
  cases ps[m]? with
  | none => rfl
  | some p =>
    by_cases h : index = m
    · simp [h, TabPage.SetVisible]
    · simp [h]

/-- What `onInsertedPage` does when the page is not the only one in the list, whatever
the native calls answer: the page at `index` is hidden, the others keep their
visibility, and `selectedIndex`, the page count and the publisher are untouched. -/
theorem onInsertedPage_not_first (tw : TabWidget) (index : Nat) (r : InsertReplies)
    (h : tw.pages.length ≠ 1) :
    (tw.onInsertedPage index r).1.selectedIndex = tw.selectedIndex ∧
    (tw.onInsertedPage index r).1.published = tw.published ∧
    (tw.onInsertedPage index r).1.pages.length = tw.pages.length ∧
    ∀ m, ((tw.onInsertedPage index r).1.pages[m]?).map TabPage.visible
      = (tw.pages[m]?).map (fun p => if index = m then false else p.visible) := by
  have hlen : ¬ ((tw.pages.length : Int) = 1) := by exact_mod_cast h
  unfold TabWidget.onInsertedPage
  simp only [TabPageList.Len, List.length_modify, hlen, if_false]
  split_ifs <;>
    simp [TabWidget.send, resizePages_selectedIndex, resizePages_published, resizePages_length,
      visible_getElem_of_map_eq (resizePages_visible _ _), modify_SetVisible_visible]

/-- What `onInsertedPage` does for the only page of the list once `GetWindowLong`,
`SetWindowLong` and `SetParent` have succeeded, whatever `TCM_INSERTITEM` answers:
`selectedIndex` becomes 0 and the page at `index` is shown. -/
theorem onInsertedPage_first (tw : TabWidget) (index : Nat) (r : InsertReplies)
    (h : tw.pages.length = 1) (h1 : r.getWindowLong ≠ 0) (h2 : r.setWindowLong ≠ 0)
    (h3 : r.setParent ≠ 0) :
    (tw.onInsertedPage index r).1.selectedIndex = 0 ∧
    (tw.onInsertedPage index r).1.published = tw.published ∧
    (tw.onInsertedPage index r).1.pages.length = tw.pages.length ∧
    ∀ m, ((tw.onInsertedPage index r).1.pages[m]?).map TabPage.visible
      = (tw.pages[m]?).map (fun p => if index = m then true else p.visible) := by
  have hlen : ((tw.pages.length : Int) = 1) := by exact_mod_cast h
  have hvis : ∀ m, (((tw.pages.modify (fun page => page.SetVisible false) index).modify
        (fun page => page.SetVisible true) index)[m]?).map TabPage.visible
      = (tw.pages[m]?).map (fun p => if index = m then true else p.visible) := by
    intro m
    rw [modify_SetVisible_visible, List.getElem?_modify]
    cases tw.pages[m]? with
    | none => rfl
    | some p => by_cases hm : index = m <;> simp [hm]
  unfold TabWidget.onInsertedPage
  simp only [TabPageList.Len, List.length_modify, hlen, h1, h2, h3, if_false, if_true]
  split_ifs <;>
    simp [TabWidget.send, resizePages_selectedIndex, resizePages_published, resizePages_length,
      visible_getElem_of_map_eq (resizePages_visible _ _), hvis]

/-- The error `onInsertedPage` returns is `none` exactly when the four native calls
it checks succeed. -/
theorem onInsertedPage_error_iff (tw : TabWidget) (index : Nat) (r : InsertReplies) :
    (tw.onInsertedPage index r).2 = none ↔ r.succeeds := by
  unfold TabWidget.onInsertedPage InsertReplies.succeeds
  by_cases h1 : r.getWindowLong = 0
  · simp [h1]
  · by_cases h2 : r.setWindowLong = 0
    · simp [h1, h2]
    · by_cases h3 : r.setParent = 0
      · simp [h1, h2, h3]
      · by_cases h4 : r.insertItem = -1
        · simp [h1, h2, h3, h4]
        · simp [h1, h2, h3, h4]

/-! ## Lemmas on `onSelChange` and `SetSelectedIndex` -/

theorem TabPageList.update_eq (pages : List TabPage) (index : Int) (f : TabPage → TabPage)
    (h0 : 0 ≤ index) (h1 : index < (pages.length : Int)) :
    ∃ p, pages[index.toNat]? = some p ∧
      TabPageList.update pages index f = some (pages.set index.toNat (f p)) := by
  have hlt : index.toNat < pages.length := by omega
  refine ⟨pages[index.toNat], List.getElem?_eq_getElem hlt, ?_⟩
  simp [TabPageList.update, TabPageList.At, h0, List.getElem?_eq_getElem hlt]

/-- Visibility flags after replacing the page at `k`. -/
theorem set_visible (pages : List TabPage) (k : Nat) (q : TabPage) (hk : k < pages.length)
    (i : Nat) :
    ((pages.set k q)[i]?).map TabPage.visible
      = if k = i then some q.visible else (pages[i]?).map TabPage.visible := by
  rw [List.getElem?_set]
  by_cases h : k = i
  · subst h
    simp [hk]
  · simp [h]

/-- Function `onSelChange` when the recorded selection is -1 or a position of the list, every
page other than the recorded one is hidden, and the native control reports a position of
the list: the call completes, records the reported index, shows exactly that page and
publishes once. -/
theorem onSelChange_shows_reported (tw : TabWidget) (curSel : Int)
    (hsel : SelectionInRange tw)
    (hothers : ∀ i, i < tw.pages.length → (i : Int) ≠ tw.selectedIndex →
      (tw.pages[i]?).map TabPage.visible = some false)
    (h0 : 0 ≤ curSel) (h1 : curSel < (tw.pages.length : Int)) :
    ∃ tw1, tw.onSelChange curSel = some tw1 ∧
      tw1.selectedIndex = curSel ∧
      tw1.published = tw.published + 1 ∧
      tw1.pages.length = tw.pages.length ∧
      OnlyVisible curSel tw1.pages := by
  have hc1 : curSel ≠ -1 := by omega
  -- the pages after the previously selected one has been hidden
  obtain ⟨pages1, hp1, hl1, hv1⟩ : ∃ pages1,
      (if tw.selectedIndex ≠ -1 then
          TabPageList.update tw.pages tw.selectedIndex (fun page => page.SetVisible false)
        else some tw.pages) = some pages1 ∧
      pages1.length = tw.pages.length ∧
      ∀ i, i < tw.pages.length → (pages1[i]?).map TabPage.visible = some false := by
    by_cases hs : tw.selectedIndex = -1
    · refine ⟨tw.pages, by simp [hs], rfl, ?_⟩
      intro i hi
      exact hothers i hi (by omega)
    · have hr : 0 ≤ tw.selectedIndex ∧ tw.selectedIndex < (tw.pages.length : Int) := by
        rcases hsel with h | h
        · exact absurd h hs
        · exact h
      obtain ⟨p, _, hu⟩ := TabPageList.update_eq tw.pages tw.selectedIndex
        (fun page => page.SetVisible false) hr.1 hr.2
      refine ⟨tw.pages.set tw.selectedIndex.toNat (p.SetVisible false), by simp [hs, hu],
        by simp, ?_⟩
      intro i hi
      rw [set_visible _ _ _ (by omega)]
      by_cases hk : tw.selectedIndex.toNat = i
      · simp [hk, TabPage.SetVisible]
      · simp only [hk, if_false]
        exact hothers i hi (by omega)
  obtain ⟨q, _, hu2⟩ := TabPageList.update_eq pages1 curSel
    (fun page => (page.SetVisible true).Invalidate) h0 (by omega)
  have key : tw.onSelChange curSel = some (TabWidget.publish
      { tw.send TabMsg.TCM_GETCURSEL with
        pages := pages1.set curSel.toNat ((q.SetVisible true).Invalidate)
        selectedIndex := curSel }) := by
    unfold TabWidget.onSelChange
    simp only [hp1, hc1, ne_eq, not_false_eq_true, if_true, hu2]
  refine ⟨_, key, ?_, ?_, ?_, ?_⟩
  · rfl
  · simp [TabWidget.publish, TabWidget.send]
  · simp [TabWidget.publish, hl1]
  · intro i hi
    simp only [TabWidget.publish, List.length_set] at hi ⊢
    rw [set_visible _ _ _ (by omega)]
    by_cases hk : curSel.toNat = i
    · have : (i : Int) = curSel := by omega
      simp [hk, this, TabPage.SetVisible, TabPage.Invalidate]
    · have : ¬ (i : Int) = curSel := by omega
      simp only [hk, if_false, this, decide_False]
      exact hv1 i (by omega)

/-- Function `onSelChange` completes whenever the recorded selection and the index the native
control reports are each -1 or a position of the list. -/
theorem onSelChange_completes (tw : TabWidget) (curSel : Int) (hsel : SelectionInRange tw)
    (hcur : curSel = -1 ∨ (0 ≤ curSel ∧ curSel < (tw.pages.length : Int))) :
    ∃ tw1, tw.onSelChange curSel = some tw1 := by
  obtain ⟨pages1, hp1, hl1⟩ : ∃ pages1,
      (if tw.selectedIndex ≠ -1 then
          TabPageList.update tw.pages tw.selectedIndex (fun page => page.SetVisible false)
        else some tw.pages) = some pages1 ∧
      pages1.length = tw.pages.length := by
    by_cases hs : tw.selectedIndex = -1
    · exact ⟨tw.pages, by simp [hs], rfl⟩
    · have hr : 0 ≤ tw.selectedIndex ∧ tw.selectedIndex < (tw.pages.length : Int) := by
        rcases hsel with h | h
        · exact absurd h hs
        · exact h
      obtain ⟨p, _, hu⟩ := TabPageList.update_eq tw.pages tw.selectedIndex
        (fun page => page.SetVisible false) hr.1 hr.2
      exact ⟨tw.pages.set tw.selectedIndex.toNat (p.SetVisible false), by simp [hs, hu],
        by simp⟩
  by_cases hc : curSel = -1
  · unfold TabWidget.onSelChange
    simp only [hp1, hc, ne_eq, not_true_eq_false, if_false]
    exact ⟨_, rfl⟩
  · have hr : 0 ≤ curSel ∧ curSel < (tw.pages.length : Int) := by
      rcases hcur with h | h
      · exact absurd h hc
      · exact h
    obtain ⟨q, _, hu2⟩ := TabPageList.update_eq pages1 curSel
      (fun page => (page.SetVisible true).Invalidate) hr.1 (by omega)
    unfold TabWidget.onSelChange
    simp only [hp1, hc, ne_eq, not_false_eq_true, if_true, hu2]
    exact ⟨_, rfl⟩

/-! ## Adding pages at the end -/

/-- A successful `Insert` at the end of the list of a widget that has only had pages
added keeps that shape and makes the list one longer. -/
theorem Insert_at_end_fresh (tw : TabWidget) (page : TabPage) (r : InsertReplies)
    (hf : FreshShape tw) (hr : r.succeeds) :
    ∃ tw1, TabPageList.Insert tw (TabPageList.Len tw.pages) page r = some (tw1, none) ∧
      FreshShape tw1 ∧ tw1.pages.length = tw.pages.length + 1 := by
  have hrange : ¬ (TabPageList.Len tw.pages < 0 ∨
      TabPageList.Len tw.pages > TabPageList.Len tw.pages) := by
    unfold TabPageList.Len; omega
  have hnat : (TabPageList.Len tw.pages).toNat = tw.pages.length := by
    unfold TabPageList.Len; simp
  have happ : List.insertIdx tw.pages.length page tw.pages = tw.pages ++ [page] :=
    List.insertIdx_length_self _ _
  unfold TabPageList.Insert
  simp only [hrange, if_false, TabWidget.onInsertingPage, hnat, happ]
  have herr := (onInsertedPage_error_iff { tw with pages := tw.pages ++ [page] }
    tw.pages.length r).2 hr
  cases hres : TabWidget.onInsertedPage { tw with pages := tw.pages ++ [page] }
      tw.pages.length r with
  | mk tw2 e =>
    rw [hres] at herr
    simp only at herr
    subst herr
    refine ⟨tw2, rfl, ?_⟩
    have htw2 : tw2 = (TabWidget.onInsertedPage { tw with pages := tw.pages ++ [page] }
        tw.pages.length r).1 := by rw [hres]
    by_cases h0 : tw.pages.length = 0
    · obtain ⟨hsel, _, hl, hv⟩ := onInsertedPage_first { tw with pages := tw.pages ++ [page] }
        tw.pages.length r (by simp [h0]) hr.1 hr.2.1 hr.2.2.1
      rw [← htw2] at hsel hl hv
      have hl1 : tw2.pages.length = tw.pages.length + 1 := by simpa using hl
      refine ⟨⟨?_, ?_⟩, hl1⟩
      · rw [hsel]; simp [hl1]
      · intro i hi
        rw [hsel, hv i]
        have hi0 : i = 0 := by omega
        have hnil : tw.pages = [] := List.length_eq_zero.1 h0
        simp [hi0, hnil]
    · obtain ⟨hsel, _, hl, hv⟩ := onInsertedPage_not_first { tw with pages := tw.pages ++ [page] }
        tw.pages.length r (by simp [h0])
      rw [← htw2] at hsel hl hv
      have hl1 : tw2.pages.length = tw.pages.length + 1 := by simpa using hl
      have hs0 : tw.selectedIndex = 0 := by rw [hf.1]; simp [h0]
      simp only at hsel
      refine ⟨⟨?_, ?_⟩, hl1⟩
      · rw [hsel, hs0]; simp [hl1]
      · intro i hi
        rw [hsel, hs0, hv i]
        by_cases hlast : tw.pages.length = i
        · have hne : ¬ ((i : Int) = 0) := by omega
          subst hlast
          simp [hne]
        · have hlt : i < tw.pages.length := by omega
          have hold := hf.2 i hlt
          rw [hs0] at hold
          simp only [List.getElem?_append_left hlt]
          cases hp : tw.pages[i]? with
          | none => simp [hp] at hold
          | some p =>
            rw [hp] at hold
            simpa [hlast] using hold

/-- Adding pages one after the other to a widget that has only had pages added, all
insertions succeeding, completes and keeps that shape. -/
theorem addPages_fresh :
    ∀ (ps : List (TabPage × InsertReplies)) (tw : TabWidget),
      FreshShape tw → (∀ x ∈ ps, x.2.succeeds) →
      ∃ tw1, addPages tw ps = some tw1 ∧ FreshShape tw1 ∧
        tw1.pages.length = tw.pages.length + ps.length := by
  intro ps
  induction ps with
  | nil => intro tw hf _; exact ⟨tw, rfl, hf, rfl⟩
  | cons x rest ih =>
    intro tw hf hok
    obtain ⟨page, r⟩ := x
    obtain ⟨tw1, h1, hf1, hl1⟩ := Insert_at_end_fresh tw page r hf
      (hok (page, r) (List.mem_cons_self _ _))
    obtain ⟨tw2, h2, hf2, hl2⟩ := ih tw1 hf1 (fun y hy => hok y (List.mem_cons_of_mem _ hy))
    refine ⟨tw2, ?_, hf2, ?_⟩
    · simp only [addPages, h1]
      exact h2
    · rw [hl2, hl1, List.length_cons]; omega

theorem init_fresh (h : Nat) : FreshShape (TabWidget.init h) := by
  refine ⟨rfl, ?_⟩
  intro i hi
  simp [TabWidget.init] at hi

/-! ## Lemmas on `RestoreState` -/

theorem firstPageError_none (result : Nat → Option Error) (n : Nat)
    (h : ∀ i, result i = none) : TabWidget.firstPageError result n = none := by
  unfold TabWidget.firstPageError
  rw [List.findSome?_eq_none_iff]
  intro x _
  exact h x

/-- Function `Itoa` never writes the empty string. -/
theorem Itoa_ne_empty (i : Int) : Itoa i ≠ "" := by
  intro h
  have hd : (Itoa i).data = [] := by rw [h]
  cases i with
  | ofNat m => exact repr_data_ne_nil m hd
  | negSucc m =>
    unfold Itoa at hd
    simp only [String.data_append] at hd
    simp at hd

/-- With an in-range index and a native `TCM_SETCURSEL` that does not report -1,
`SetSelectedIndex` returns no error. -/
theorem SetSelectedIndex_no_error (tw : TabWidget) (index ret curSel : Int)
    (h0 : 0 ≤ index) (h1 : index < (tw.pages.length : Int)) (hret : ret ≠ -1)
    (tw1 : TabWidget) (e : Error) :
    tw.SetSelectedIndex index ret curSel ≠ some (tw1, some e) := by
  intro h
  unfold TabWidget.SetSelectedIndex at h
  have hin : ¬ (index < 0 ∨ index ≥ TabPageList.Len tw.pages) := by
    unfold TabPageList.Len; omega
  by_cases hs : index = tw.selectedIndex
  · simp [hs] at h
  · simp only [hs, hin, hret, if_false] at h
    cases ho : (tw.send (TabMsg.TCM_SETCURSEL index)).onSelChange curSel with
    | none => simp [ho] at h
    | some tw2 => simp [ho] at h

/-- Function `RestoreState` once the state store has handed back a non-empty string that `Atoi`
reads as `index`, every page restoring without error. -/
theorem RestoreState_parsed (intSize : Nat) (tw : TabWidget) (state : String)
    (ret curSel : Int) (pageRestore : Nat → Option Error) (index : Int)
    (hne : state ≠ "") (hparse : Atoi intSize state = .ok index)
    (hpages : ∀ i, pageRestore i = none) :
    tw.RestoreState intSize (.ok state) ret curSel pageRestore
      = if index ≥ 0 ∧ index < TabPageList.Len tw.pages then
          tw.SetSelectedIndex index ret curSel
        else some (tw, none) := by
  unfold TabWidget.RestoreState
  simp only [hne, if_false, hparse]
  by_cases hin : index ≥ 0 ∧ index < TabPageList.Len tw.pages
  · simp only [hin, and_self, if_true]
    cases hs : tw.SetSelectedIndex index ret curSel with
    | none => rfl
    | some res =>
      obtain ⟨tw1, e⟩ := res
      cases e with
      | none => simp [firstPageError_none _ _ hpages]
      | some err => rfl
  · simp only [hin, if_false, firstPageError_none _ _ hpages]

/-! ## ComboBox lemmas -/

/-- Function `SetSelectedIndex` returns no error exactly when the native reply is the
requested index. -/
theorem ComboBox.SetSelectedIndex_none_iff (cb : ComboBox) (i reply : Int) :
    (cb.SetSelectedIndex i reply).2 = none ↔ reply = i := by
  unfold ComboBox.SetSelectedIndex
  by_cases h : reply = i
  · by_cases h2 : i = cb.prevSelIndex
    · simp [h, h2]
    · simp [h, h2]
  · simp [h]

/-! ## ComboBox theorems -/

/-- C1. `ComboBox.SetSelectedIndex(i)` returns the "invalid index" error exactly when
the index the native control reports back differs from `i` (and returns no other
error); in that case the widget, that is the item list, `prevSelIndex` and the number
of published events, is what it was before the call.  Instance: items A, B, C and
`SetSelectedIndex(5)`, which the native control answers with something other than 5. -/
theorem C1_SetSelectedIndex_invalid_index (cb : ComboBox) (i reply : Int) :
    ((cb.SetSelectedIndex i reply).2 = some (Error.newError "invalid index") ↔ reply ≠ i) ∧
    ((cb.SetSelectedIndex i reply).2 = none ↔ reply = i) ∧
    (reply ≠ i →
      (cb.SetSelectedIndex i reply).1.prevSelIndex = cb.prevSelIndex ∧
      (cb.SetSelectedIndex i reply).1.items = cb.items ∧
      (cb.SetSelectedIndex i reply).1.published = cb.published) ∧
    ((cb.SetSelectedIndex i reply).1.items = cb.items) ∧
    (reply ≠ 5 →
      ComboBox.SetSelectedIndex ⟨["A", "B", "C"], cb.prevSelIndex, cb.published⟩ 5 reply
        = (⟨["A", "B", "C"], cb.prevSelIndex, cb.published⟩,
            some (Error.newError "invalid index"))) := by
  unfold ComboBox.SetSelectedIndex ComboBox.publish
  by_cases h : reply = i
  · subst h
    by_cases h2 : reply = cb.prevSelIndex
    · simp [h2]
      intro h5; simp [h5]
    · simp [h2]
      intro h5; simp [h5]
  · simp [h]
    intro h5; simp [h5]

/-- C2. On a ComboBox the selection-changed event is published only on an actual
change.  A successful `SetSelectedIndex(i)` (the native control reports `i` back) and
a `CBN_SELENDOK` notification whose freshly read native selection is `i` each publish
exactly once when `i` differs from `prevSelIndex` and not at all when it equals it,
and leave `prevSelIndex = i`.  Two consecutive successful `SetSelectedIndex(i)` calls
publish at most once in total and the second publishes nothing. -/
theorem C2_publish_only_on_change (cb : ComboBox) (i : Int) (wParam base : Nat) :
    (∀ reply, (cb.SetSelectedIndex i reply).2 = none →
      (cb.SetSelectedIndex i reply).1.published
          = cb.published + (if i = cb.prevSelIndex then 0 else 1) ∧
      (cb.SetSelectedIndex i reply).1.prevSelIndex = i) ∧
    (HIWORD wParam = CBN_SELENDOK →
      (cb.wndProc WM_COMMAND wParam i base).1.published
          = cb.published + (if i = cb.prevSelIndex then 0 else 1) ∧
      (cb.wndProc WM_COMMAND wParam i base).1.prevSelIndex = i) ∧
    (∀ reply1 reply2,
      (cb.SetSelectedIndex i reply1).2 = none →
      ((cb.SetSelectedIndex i reply1).1.SetSelectedIndex i reply2).2 = none →
      ((cb.SetSelectedIndex i reply1).1.SetSelectedIndex i reply2).1.published
          = (cb.SetSelectedIndex i reply1).1.published ∧
      ((cb.SetSelectedIndex i reply1).1.SetSelectedIndex i reply2).1.published
          ≤ cb.published + 1) := by
  refine ⟨?_, ?_, ?_⟩
  · intro reply h
    unfold ComboBox.SetSelectedIndex ComboBox.publish at h ⊢
    by_cases h1 : reply = i
    · by_cases h2 : i = cb.prevSelIndex
      · simp [h1, h2]
      · simp [h1, h2]
    · simp [h1] at h
  · intro hw
    unfold ComboBox.wndProc ComboBox.SelectedIndex ComboBox.publish
    by_cases h2 : i = cb.prevSelIndex
    · simp [hw, h2]
    · simp [hw, h2]
  · intro reply1 reply2 h1 h2
    have e1 : reply1 = i := (ComboBox.SetSelectedIndex_none_iff cb i reply1).1 h1
    have e2 : reply2 = i := (ComboBox.SetSelectedIndex_none_iff _ i reply2).1 h2
    rw [e1, e2]
    unfold ComboBox.SetSelectedIndex ComboBox.publish
    by_cases e3 : i = cb.prevSelIndex
    · simp [e3]
    · simp [e3]

/-- C3. Removing the item at the recorded selection `k` (`onRemovingComboBoxItem(k, item)`,
whatever the native delete answers) resets `prevSelIndex` to -1 and publishes nothing;
the next `SetSelectedIndex(j)` for an index `j` the native control accepts (it reports
`j` back, and `j` is not the error value `CB_ERR`) returns no error, publishes exactly
once and records `j`, also when `j = k`. -/
theorem C3_remove_selected_then_select (cb : ComboBox) (k j : Int) (item : String)
    (delReply : Int) (hsel : cb.prevSelIndex = k) (hj : j ≠ CB_ERR) :
    (cb.onRemovingComboBoxItem k item delReply).1.prevSelIndex = -1 ∧
    (cb.onRemovingComboBoxItem k item delReply).1.published = cb.published ∧
    ((cb.onRemovingComboBoxItem k item delReply).1.SetSelectedIndex j j).2 = none ∧
    ((cb.onRemovingComboBoxItem k item delReply).1.SetSelectedIndex j j).1.published
        = cb.published + 1 ∧
    ((cb.onRemovingComboBoxItem k item delReply).1.SetSelectedIndex j j).1.prevSelIndex = j := by
  have hj1 : j ≠ -1 := hj
  subst hsel
  simp [ComboBox.onRemovingComboBoxItem, ComboBox.SetSelectedIndex, ComboBox.publish, hj1]

/-- Witness for C3: selection 1 of three items, item 1 removed, index 1 selected again. -/
theorem C3_remove_selected_then_select_witness :
    (ComboBox.onRemovingComboBoxItem ⟨["A", "B", "C"], 1, 0⟩ 1 "B" 0).1.prevSelIndex = -1 ∧
    ((ComboBox.onRemovingComboBoxItem ⟨["A", "B", "C"], 1, 0⟩ 1 "B" 0).1.SetSelectedIndex
        1 1).1.published = 1 := by
  have h := C3_remove_selected_then_select ⟨["A", "B", "C"], 1, 0⟩ 1 1 "B" 0 rfl (by decide)
  exact ⟨h.1, by simpa using h.2.2.2.1⟩

/-- C4, evaluated where the code departs from it: with `prevSelIndex = 1`, a native
`CB_DELETESTRING` for index 1 that reports `CB_ERR` makes `onRemovingComboBoxItem`
return its error and also reset `prevSelIndex` to -1. -/
theorem C4_failed_delete_resets_selection :
    ComboBox.onRemovingComboBoxItem ⟨["A", "B", "C"], 1, 0⟩ 1 "B" CB_ERR
      = (⟨["A", "B", "C"], -1, 0⟩, some (Error.newError "CB_DELETESTRING failed")) := by
  decide

/-- C5. `TabWidget.SetSelectedIndex(index)`: when `index` is the current
`selectedIndex` it returns no error and leaves the widget as it was (no message sent,
no page touched, nothing published), also for -1 on a new widget; otherwise it returns
the "invalid index" error exactly when `index < 0` or `index ≥ Len()`, and then the
widget is as it was before the call. -/
theorem C5_SetSelectedIndex_noop_and_range (tw : TabWidget) (index ret curSel : Int) :
    (index = tw.selectedIndex → tw.SetSelectedIndex index ret curSel = some (tw, none)) ∧
    (∀ h, (TabWidget.init h).SetSelectedIndex (-1) ret curSel = some (TabWidget.init h, none)) ∧
    (index ≠ tw.selectedIndex →
      ((∃ tw1, tw.SetSelectedIndex index ret curSel
            = some (tw1, some (Error.newError "invalid index")))
        ↔ (index < 0 ∨ index ≥ (tw.pages.length : Int))) ∧
      ((index < 0 ∨ index ≥ (tw.pages.length : Int)) →
        tw.SetSelectedIndex index ret curSel
          = some (tw, some (Error.newError "invalid index")))) := by
  refine ⟨?_, ?_, ?_⟩
  · intro h
    simp [TabWidget.SetSelectedIndex, h]
  · intro h
    simp [TabWidget.SetSelectedIndex, TabWidget.init]
  · intro hne
    have hout : (index < 0 ∨ index ≥ (tw.pages.length : Int)) →
        tw.SetSelectedIndex index ret curSel
          = some (tw, some (Error.newError "invalid index")) := by
      intro h
      simp [TabWidget.SetSelectedIndex, TabPageList.Len, hne, h]
    refine ⟨⟨?_, fun h => ⟨tw, hout h⟩⟩, hout⟩
    rintro ⟨tw1, h1⟩
    by_contra hin
    unfold TabWidget.SetSelectedIndex at h1
    simp only [TabPageList.Len, hne, hin, if_false] at h1
    by_cases hr : ret = -1
    · simp [hr] at h1
    · simp only [hr, if_false] at h1
      cases hs : (tw.send (TabMsg.TCM_SETCURSEL index)).onSelChange curSel with
      | none => simp [hs] at h1
      | some tw2 => simp [hs] at h1

/-- C6, evaluated where the code departs from it.  Page A is inserted into a new
TabWidget at index 0 and page B is then inserted at index 0, both successfully: the
list is B, A with `selectedIndex = 0`, yet the page at position 0 (B) is hidden and the
visible page (A) is at position 1.  A selection-changed notification for tab 0 then
leaves both pages visible. -/
theorem C6_insert_before_selected :
    ∃ tw1 tw2 tw3,
      TabPageList.Insert (TabWidget.init 1) 0 (newPage "A") (insertOk 0) = some (tw1, none) ∧
      TabPageList.Insert tw1 0 (newPage "B") (insertOk 0) = some (tw2, none) ∧
      tw2.selectedIndex = 0 ∧
      tw2.pages.map TabPage.text = ["B", "A"] ∧
      tw2.pages.map TabPage.visible = [false, true] ∧
      tw2.onSelChange 0 = some tw3 ∧
      tw3.selectedIndex = 0 ∧
      tw3.pages.map TabPage.visible = [true, true] := by
  refine ⟨_, _, _, rfl, rfl, ?_, ?_, ?_, rfl, ?_, ?_⟩ <;> decide

/-- C7, evaluated where the code departs from it.  The first page is inserted into a
new TabWidget (`selectedIndex = -1`) and `TCM_INSERTITEM` reports -1:
`onInsertedPage` returns its error with `selectedIndex` already set to 0 and the page
shown; after the page list has taken the page out again `selectedIndex` is still 0. -/
theorem C7_failed_first_insert :
    (TabWidget.onInsertedPage { TabWidget.init 1 with pages := [newPage "A"] } 0
        insertItemFails).2 = some (Error.newError "SendMessage(TCM_INSERTITEM) failed") ∧
    (TabWidget.onInsertedPage { TabWidget.init 1 with pages := [newPage "A"] } 0
        insertItemFails).1.selectedIndex = 0 ∧
    (TabWidget.onInsertedPage { TabWidget.init 1 with pages := [newPage "A"] } 0
        insertItemFails).1.pages.map TabPage.visible = [true] ∧
    (TabPageList.Insert (TabWidget.init 1) 0 (newPage "A") insertItemFails).map
        (fun res => (res.1.selectedIndex, res.1.pages, res.2))
      = some (0, [], some (Error.newError "SendMessage(TCM_INSERTITEM) failed")) := by
  refine ⟨?_, ?_, ?_, ?_⟩ <;> decide

/-- C9. When `onInsertedPage` returns no error for the first page of a TabWidget
(`selectedIndex = -1`, page list of length 1), `selectedIndex` is 0 and the one page of
the list is visible.  When the page list is longer than 1, the inserted page (the one at
`index`) is left hidden, every other page keeps its visibility and `selectedIndex`
keeps its value. -/
theorem C9_first_page_selected (tw : TabWidget) (index : Nat) (r : InsertReplies)
    (hidx : index < tw.pages.length) :
    (tw.selectedIndex = -1 → tw.pages.length = 1 → (tw.onInsertedPage index r).2 = none →
      (tw.onInsertedPage index r).1.selectedIndex = 0 ∧
      (tw.onInsertedPage index r).1.pages.map TabPage.visible = [true]) ∧
    (1 < tw.pages.length →
      (tw.onInsertedPage index r).1.selectedIndex = tw.selectedIndex ∧
      ((tw.onInsertedPage index r).1.pages[index]?).map TabPage.visible = some false ∧
      ∀ m, m ≠ index →
        ((tw.onInsertedPage index r).1.pages[m]?).map TabPage.visible
          = (tw.pages[m]?).map TabPage.visible) := by
  constructor
  · intro _ hlen hok
    have hs := (onInsertedPage_error_iff tw index r).1 hok
    obtain ⟨hsel, _, hl, hv⟩ := onInsertedPage_first tw index r hlen hs.1 hs.2.1 hs.2.2.1
    refine ⟨hsel, ?_⟩
    have h0 : index = 0 := by omega
    have hv0 := hv 0
    rw [hlen] at hl
    obtain ⟨p, hp⟩ := List.length_eq_one.1 hl
    obtain ⟨q, hq⟩ := List.length_eq_one.1 hlen
    rw [hp] at hv0 ⊢
    rw [hq] at hv0
    simp [h0] at hv0
    simp [hv0]
  · intro hlen
    obtain ⟨hsel, _, _, hv⟩ := onInsertedPage_not_first tw index r (by omega)
    refine ⟨hsel, ?_, ?_⟩
    · rw [hv index]
      simp [List.getElem?_eq_getElem hidx]
    · intro m hm
      rw [hv m]
      cases tw.pages[m]? with
      | none => rfl
      | some p => simp [Ne.symm hm]

/-- Witness for C9: the first page inserted into a new TabWidget, all native calls
succeeding. -/
theorem C9_first_page_selected_witness :
    (TabWidget.onInsertedPage { TabWidget.init 1 with pages := [newPage "A"] } 0
        (insertOk 0)).1.selectedIndex = 0 ∧
    (TabWidget.onInsertedPage { TabWidget.init 1 with pages := [newPage "A"] } 0
        (insertOk 0)).1.pages.map TabPage.visible = [true] :=
  (C9_first_page_selected { TabWidget.init 1 with pages := [newPage "A"] } 0 (insertOk 0)
    (by decide)).1 (by decide) (by decide) (by decide)

/-- C8. Save/restore round trip of the TabWidget.  `SaveState` on a widget whose
`selectedIndex` is `s` hands the decimal string of `s` to the state store.  A new
TabWidget to which the `n` pages are added (every insertion succeeding) exists, and
`RestoreState` on it, reading that string, with the native selection command
succeeding, the native control reporting the index it was set to and every page
restoring without error, returns no error and ends with `selectedIndex = s`, the same
`n` pages, the page at `s` visible and every other page hidden.  Here `s = -1` when
`n = 0` and `0 ≤ s < n` otherwise, and `n` fits an `int` of `intSize` bits. -/
theorem C8_save_restore_round_trip (intSize hWndTab : Nat)
    (ps : List (TabPage × InsertReplies)) (s : Int) (saved : TabWidget)
    (pageSave pageRestore : Nat → Option Error) (ret : Int)
    (hs : (ps.length = 0 ∧ s = -1) ∨ (0 ≤ s ∧ s < (ps.length : Int)))
    (hsaved : saved.selectedIndex = s)
    (hint : (ps.length : Int) < 2 ^ (intSize - 1))
    (hins : ∀ x ∈ ps, x.2.succeeds)
    (hret : ret ≠ -1)
    (hpages : ∀ i, pageRestore i = none) :
    (saved.SaveState pageSave).1 = toString s ∧
    ∃ fresh restored,
      addPages (TabWidget.init hWndTab) ps = some fresh ∧
      fresh.pages.length = ps.length ∧
      fresh.RestoreState intSize (.ok (saved.SaveState pageSave).1) ret s pageRestore
        = some (restored, none) ∧
      restored.selectedIndex = s ∧
      restored.pages.length = ps.length ∧
      OnlyVisible s restored.pages := by
  have hstr : (saved.SaveState pageSave).1 = Itoa s := by
    simp [TabWidget.SaveState, TabWidget.SelectedIndex, hsaved]
  refine ⟨by rw [hstr]; cases s <;> rfl, ?_⟩
  obtain ⟨fresh, hadd, hf, hlen⟩ := addPages_fresh ps (TabWidget.init hWndTab)
    (init_fresh hWndTab) hins
  have hlen1 : fresh.pages.length = ps.length := by simpa [TabWidget.init] using hlen
  have hpow : (1 : Int) ≤ 2 ^ (intSize - 1) := by
    have : (1 : Nat) ≤ 2 ^ (intSize - 1) := Nat.one_le_two_pow
    exact_mod_cast this
  have hparse : Atoi intSize (Itoa s) = .ok s := by
    apply Atoi_Itoa
    · rcases hs with ⟨_, h⟩ | ⟨h, _⟩ <;> omega
    · rcases hs with ⟨_, h⟩ | ⟨_, h⟩ <;> omega
  have hrs := RestoreState_parsed intSize fresh (Itoa s) ret s pageRestore s
    (Itoa_ne_empty s) hparse hpages
  rw [hstr]
  refine ⟨fresh, ?_⟩
  rw [hrs]
  rcases hs with ⟨hn, hm⟩ | ⟨h0, h1⟩
  · -- no pages: nothing to select
    have hout : ¬ (s ≥ 0 ∧ s < TabPageList.Len fresh.pages) := by omega
    have hsel : fresh.selectedIndex = -1 := by rw [hf.1]; simp [hlen1, hn]
    refine ⟨fresh, hadd, hlen1, by simp only [hout, if_false], by rw [hsel, hm], hlen1, ?_⟩
    intro i hi
    omega
  · have hin : s ≥ 0 ∧ s < TabPageList.Len fresh.pages := by
      unfold TabPageList.Len; omega
    have hne : ¬ fresh.pages.length = 0 := by omega
    have hsel : fresh.selectedIndex = 0 := by rw [hf.1]; simp [hne]
    simp only [hin, and_self, if_true]
    by_cases hs0 : s = fresh.selectedIndex
    · refine ⟨fresh, hadd, hlen1, by simp [TabWidget.SetSelectedIndex, hs0], hs0.symm, hlen1, ?_⟩
      rw [hs0]; exact hf.2
    · have hrange : ¬ (s < 0 ∨ s ≥ TabPageList.Len fresh.pages) := by omega
      obtain ⟨tw1, hon, hsel1, _, hl1, hv1⟩ := onSelChange_shows_reported
        (fresh.send (TabMsg.TCM_SETCURSEL s)) s
        (Or.inr ⟨by simp [TabWidget.send, hsel], by
          simp only [TabWidget.send, TabPageList.Len, hsel]; omega⟩)
        (by
          intro i hi hne1
          have := hf.2 i (by simpa [TabWidget.send] using hi)
          simp only [TabWidget.send] at hne1 ⊢
          rw [this]
          simp [hne1])
        h0 (by simp only [TabWidget.send]; omega)
      refine ⟨tw1, hadd, hlen1, ?_, hsel1, ?_, hv1⟩
      · unfold TabWidget.SetSelectedIndex
        simp only [hs0, hrange, hret, if_false, hon]
      · rw [hl1]; simpa [TabWidget.send] using hlen1

/-- Witness for C8: three pages, index 2 selected and saved as "2", restored on a new
widget with the same three pages. -/
theorem C8_save_restore_round_trip_witness :
    (({ TabWidget.init 1 with selectedIndex := 2 } : TabWidget).SaveState
        (fun _ => none)).1 = "2" ∧
    (∃ fresh restored,
      addPages (TabWidget.init 1)
          [(newPage "A", insertOk 0), (newPage "B", insertOk 1), (newPage "C", insertOk 2)]
        = some fresh ∧
      fresh.pages.length = 3 ∧
      fresh.RestoreState 32 (.ok "2") 0 2 (fun _ => none) = some (restored, none) ∧
      restored.selectedIndex = 2 ∧
      restored.pages.length = 3 ∧
      OnlyVisible 2 restored.pages) ∧
    ((addPages (TabWidget.init 1)
          [(newPage "A", insertOk 0), (newPage "B", insertOk 1), (newPage "C", insertOk 2)]).bind
        (fun fresh => fresh.RestoreState 32 (.ok "2") 0 2 (fun _ => none))).map
        (fun res => (res.1.selectedIndex, res.1.pages.map TabPage.visible, res.2))
      = some (2, [false, false, true], none) := by
  have h := C8_save_restore_round_trip 32 1
    [(newPage "A", insertOk 0), (newPage "B", insertOk 1), (newPage "C", insertOk 2)] 2
    { TabWidget.init 1 with selectedIndex := 2 } (fun _ => none) (fun _ => none) 0
    (Or.inr (by decide)) rfl (by norm_num)
    (by
      intro x hx
      simp only [List.mem_cons, List.mem_singleton, List.not_mem_nil, or_false] at hx
      rcases hx with rfl | rfl | rfl <;> decide)
    (by decide) (fun _ => rfl)
  exact ⟨by decide, h.2, by decide⟩

/-- C10. Error behaviour of `TabWidget.RestoreState` on the persisted string, with the
state store read succeeding, every page restoring without error and the native
`TCM_SETCURSEL` not reporting -1.  It returns an error exactly when the string is
non-empty and is not a decimal integer of the `int` type (an optional sign and decimal
digits, within range), and then it returns the error of `Atoi` with the widget as it
was.  A string that reads as a negative integer or one at or above the page count
returns no error and leaves the widget as it was; so does the empty string.  For a
string that reads as a position of the page list the call completes without error
whenever the recorded selection and the index the native control reports are -1 or
positions of the list. -/
theorem C10_RestoreState_errors (intSize : Nat) (tw : TabWidget) (state : String)
    (ret curSel : Int) (pageRestore : Nat → Option Error)
    (hret : ret ≠ -1) (hpages : ∀ i, pageRestore i = none) :
    ((∃ tw1 err, tw.RestoreState intSize (.ok state) ret curSel pageRestore
          = some (tw1, some err))
      ↔ (state ≠ "" ∧ isDecimalInt intSize state = false)) ∧
    (state ≠ "" → ∀ e, Atoi intSize state = .error e →
      tw.RestoreState intSize (.ok state) ret curSel pageRestore = some (tw, some e)) ∧
    (∀ index, Atoi intSize state = .ok index →
      (index < 0 ∨ index ≥ (tw.pages.length : Int)) →
      tw.RestoreState intSize (.ok state) ret curSel pageRestore = some (tw, none)) ∧
    (tw.RestoreState intSize (.ok "") ret curSel pageRestore = some (tw, none)) ∧
    (∀ index, state ≠ "" → Atoi intSize state = .ok index →
      (0 ≤ index ∧ index < (tw.pages.length : Int)) →
      SelectionInRange tw →
      (curSel = -1 ∨ (0 ≤ curSel ∧ curSel < (tw.pages.length : Int))) →
      ∃ tw1, tw.RestoreState intSize (.ok state) ret curSel pageRestore = some (tw1, none)) := by
  have hfail : state ≠ "" → ∀ e, Atoi intSize state = .error e →
      tw.RestoreState intSize (.ok state) ret curSel pageRestore = some (tw, some e) := by
    intro hne e he
    unfold TabWidget.RestoreState
    simp only [hne, if_false, he]
  have hempty : tw.RestoreState intSize (.ok "") ret curSel pageRestore = some (tw, none) := by
    unfold TabWidget.RestoreState
    simp
  have hout : ∀ index, Atoi intSize state = .ok index →
      (index < 0 ∨ index ≥ (tw.pages.length : Int)) →
      tw.RestoreState intSize (.ok state) ret curSel pageRestore = some (tw, none) := by
    intro index hparse hrange
    by_cases hne : state = ""
    · rw [hne]; exact hempty
    · rw [RestoreState_parsed intSize tw state ret curSel pageRestore index hne hparse hpages]
      have : ¬ (index ≥ 0 ∧ index < TabPageList.Len tw.pages) := by
        unfold TabPageList.Len; omega
      simp only [this, if_false]
  refine ⟨⟨?_, ?_⟩, hfail, hout, hempty, ?_⟩
  · rintro ⟨tw1, err, h⟩
    by_cases hne : state = ""
    · rw [hne, hempty] at h
      simp at h
    · refine ⟨hne, (Atoi_error_iff intSize state).1 ?_⟩
      cases hparse : Atoi intSize state with
      | error e => exact ⟨e, rfl⟩
      | ok index =>
        exfalso
        rw [RestoreState_parsed intSize tw state ret curSel pageRestore index hne hparse
          hpages] at h
        by_cases hin : index ≥ 0 ∧ index < TabPageList.Len tw.pages
        · simp only [hin, and_self, if_true] at h
          exact SetSelectedIndex_no_error tw index ret curSel hin.1
            (by simpa [TabPageList.Len] using hin.2) hret tw1 err h
        · simp only [hin, if_false] at h
          simp at h
  · rintro ⟨hne, hbad⟩
    obtain ⟨e, he⟩ := (Atoi_error_iff intSize state).2 hbad
    exact ⟨tw, e, hfail hne e he⟩
  · intro index hne hparse hin hsel hcur
    rw [RestoreState_parsed intSize tw state ret curSel pageRestore index hne hparse hpages]
    have hin1 : index ≥ 0 ∧ index < TabPageList.Len tw.pages := by
      unfold TabPageList.Len; omega
    simp only [hin1, and_self, if_true]
    unfold TabWidget.SetSelectedIndex
    by_cases hs : index = tw.selectedIndex
    · exact ⟨tw, by simp [hs]⟩
    · have hrange : ¬ (index < 0 ∨ index ≥ TabPageList.Len tw.pages) := by
        unfold TabPageList.Len; omega
      obtain ⟨tw2, h2⟩ := onSelChange_completes (tw.send (TabMsg.TCM_SETCURSEL index)) curSel
        (by simpa [SelectionInRange, TabWidget.send] using hsel)
        (by simpa [TabWidget.send] using hcur)
      exact ⟨tw2, by simp only [hs, hrange, hret, if_false, h2]⟩

/-- Witness for C10: a widget with two pages and the persisted strings "x1" (not a
number), "7" (beyond the page count) and "1". -/
theorem C10_RestoreState_errors_witness :
    ((addPages (TabWidget.init 1) [(newPage "A", insertOk 0), (newPage "B", insertOk 1)]).bind
        (fun tw => tw.RestoreState 32 (.ok "x1") 0 0 (fun _ => none))).map
        (fun res => (res.1.selectedIndex, res.1.pages.map TabPage.visible, res.2))
      = some (0, [true, false], some (Error.numError "x1" false)) ∧
    ((addPages (TabWidget.init 1) [(newPage "A", insertOk 0), (newPage "B", insertOk 1)]).bind
        (fun tw => tw.RestoreState 32 (.ok "7") 0 0 (fun _ => none))).map
        (fun res => (res.1.selectedIndex, res.1.pages.map TabPage.visible, res.2))
      = some (0, [true, false], none) ∧
    isDecimalInt 32 "x1" = false ∧
    (TabWidget.init 1).RestoreState 32 (.ok "x1") 0 0 (fun _ => none)
      = some (TabWidget.init 1, some (Error.numError "x1" false)) := by
  refine ⟨by decide, by decide, by decide, ?_⟩
  exact (C10_RestoreState_errors 32 (TabWidget.init 1) "x1" 0 0 (fun _ => none) (by decide)
    (fun _ => rfl)).2.1 (by decide) (Error.numError "x1" false) rfl

end Walk
